import Mathlib

set_option maxRecDepth 10000
set_option maxHeartbeats 2000000

/-!
Shallow embedding of the near-intents repository
(src/src/near_intents/near_intents.py, src/intents.py, src/intents/ai_agent.py).

Python numeric values are modelled as exact rationals; the CPython binary64
floating point arithmetic that the source performs (the callers pass floats,
and create_token_diff_quote applies float explicitly) is modelled exactly by
the rounding function fl below, implemented over integer fractions so that
the kernel can evaluate it.  Strings are Lean Strings, dicts with a fixed key
set are structures, insertion-ordered dicts of variable keys are association
lists, and raised Python exceptions are modelled with Except.
-/

deriving instance DecidableEq for Except

/-- Python exceptions raised by the embedded code: KeyError from a missing
dict key, TypeError from an ill-typed operation, ValueError with its message. -/
inductive PyErr where
  | keyError
  | typeError
  | valueError (msg : String)
deriving DecidableEq, Repr

/-- Round the fraction n / d (with d positive) to the nearest integer, ties
to even; this is the rounding used by IEEE 754 binary64 arithmetic. -/
def rneFrac (n : ℤ) (d : ℕ) : ℤ :=
  let f := Int.fdiv n d
  let r2 := 2 * (n - f * d)
  if r2 < (d : ℤ) then f
  else if (d : ℤ) < r2 then f + 1
  else if f % 2 = 0 then f else f + 1

/-- Fueled binary logarithm on naturals (so that the kernel can evaluate it);
log2fuel fuel n computes the floor of log2 n for positive n below 2 to the
fuel. -/
def log2fuel : ℕ → ℕ → ℕ
  | 0, _ => 0
  | fuel + 1, n => if 2 ≤ n then log2fuel fuel (n / 2) + 1 else 0

/-- Floor of log2 of the fraction n / d, valid whenever n / d is above 2 to
the -200 (every float the embedded code manipulates is far above that). -/
def floorLog2Frac (n d : ℕ) : ℤ :=
  (log2fuel 600 (n * 2 ^ 200 / d) : ℤ) - 200

/-- Round the fraction n / d (d positive) to the nearest IEEE 754 binary64
value, returned as a fraction (round to nearest, ties to even; the exponent
range is unbounded, which agrees with IEEE 754 on every value the embedded
code manipulates: none of them overflow or are subnormal). -/
def flFrac (n : ℤ) (d : ℕ) : ℤ × ℕ :=
  if n = 0 then (0, 1)
  else
    let na := n.natAbs
    let sgn : ℤ := if 0 < n then 1 else -1
    let e : ℤ := floorLog2Frac na d - 52
    if 0 ≤ e then (sgn * rneFrac (na : ℤ) (d * 2 ^ e.toNat) * 2 ^ e.toNat, 1)
    else (sgn * rneFrac ((na : ℤ) * 2 ^ (-e).toNat) d, 2 ^ (-e).toNat)

/-- Round a rational to the nearest binary64 value.  This models both the
Python conversion float(x) of an int or of a numeric string and the rounding
step of a float arithmetic operation. -/
def fl (q : ℚ) : ℚ :=
  let p := flFrac q.num q.den
  mkRat p.1 p.2

/-- Truncation of the fraction n / d toward zero, as performed by the Python
int() conversion of a float. -/
def truncFrac (n : ℤ) (d : ℕ) : ℤ :=
  if 0 ≤ n then ((n.toNat / d : ℕ) : ℤ) else -(((-n).toNat / d : ℕ) : ℤ)

/-- to_decimals(amount, decimals) = str(int(amount * 10 ** decimals)), the
function defined identically in near_intents.py and intents.py.  The
argument amount is the exact value of the Python float the callers pass in;
the expression amount * 10 ** decimals converts the int power 10 ** decimals
to binary64 and then multiplies in binary64, each step rounding to nearest,
and int() truncates the product toward zero. -/
def to_decimals (amount : ℚ) (decimals : ℕ) : String :=
  let w := flFrac ((10 : ℤ) ^ decimals) 1
  let p := flFrac (amount.num * w.1) (amount.den * w.2)
  toString (truncFrac p.1 p.2)

/-- Big-endian byte encoding of a natural number on len bytes, the model of
the Python call n.to_bytes(len, byteorder="big") for n below 256 ^ len. -/
def toBytesBE (len n : ℕ) : List ℕ :=
  (List.range len).map fun i => n / 256 ^ (len - 1 - i) % 256

/-- Character number i of the standard base64 alphabet. -/
def b64char (i : ℕ) : Char :=
  if i < 26 then Char.ofNat (65 + i)
  else if i < 52 then Char.ofNat (97 + (i - 26))
  else if i < 62 then Char.ofNat (48 + (i - 52))
  else if i = 62 then Char.ofNat 43 else Char.ofNat 47

/-- Standard base64 encoding of a byte list, with padding, as performed by
the Python call base64.b64encode. -/
def b64chunks : List ℕ → List Char
  | a :: b :: c :: rest =>
    let w := a * 65536 + b * 256 + c
    b64char (w / 262144) :: b64char (w / 4096 % 64) :: b64char (w / 64 % 64) ::
      b64char (w % 64) :: b64chunks rest
  | [a, b] =>
    let w := a * 65536 + b * 256
    [b64char (w / 262144), b64char (w / 4096 % 64), b64char (w / 64 % 64), Char.ofNat 61]
  | [a] =>
    let w := a * 65536
    [b64char (w / 262144), b64char (w / 4096 % 64), Char.ofNat 61, Char.ofNat 61]
  | [] => []

/-- base64.b64encode(bytes).decode("utf-8"). -/
def b64encode (bytes : List ℕ) : String :=
  String.mk (b64chunks bytes)

/-- The nonce string both files build per quote:
base64.b64encode(random.getrandbits(256).to_bytes(32, byteorder="big")).
The argument is the 256-bit value drawn from the Mersenne Twister generator
of the Python random module; the draw is made explicit because it is the
only input of the computation. -/
def nonceFromDraw (randbits : ℕ) : String :=
  b64encode (toBytesBE 32 randbits)

/-- One entry of the asset registry ASSET_MAP: the on-chain token contract
id, the optional cross-chain bridge alias (key omft, present only in
near_intents.py and only for USDC) and the decimal precision. -/
structure AssetInfo where
  token_id : String
  omft : Option String
  decimals : ℕ
deriving DecidableEq, Repr

/-- One intent action inside a Quote: either a token_diff with its
insertion-ordered diff dict, or an ft_withdraw with token, receiver, amount
and optional memo. -/
inductive IntentAction where
  | tokenDiff (diff : List (String × String))
  | ftWithdraw (token : String) (receiver_id : String) (amount : String) (memo : Option String)
deriving DecidableEq, Repr

/-- The Quote TypedDict common to both files. -/
structure Quote where
  nonce : String
  signer_id : String
  verifying_contract : String
  deadline : String
  intents : List IntentAction
deriving DecidableEq, Repr

/-- The PublishIntent TypedDict: the envelope handed to publish_intent.  The
signed_data field of the source is a Commitment wrapping the canonical JSON
serialization of the quote together with an ed25519 signature and public key
produced by the external signer; the signature bytes are outside the model,
so the envelope carries the underlying Quote. -/
structure PublishIntent where
  signed_data : Quote
  quote_hashes : List String
deriving DecidableEq, Repr

/-- An option returned by the solver bus for near_intents.py, which converts
amount_out with float() before comparing and re-scaling: amount_out is kept
as the exact decimal value of the field. -/
structure RFQOption where
  amount_out : ℚ
  quote_hash : String
deriving DecidableEq, Repr

/-- Lexicographic comparison of character lists by code point, the model of
Python string comparison. -/
def pyCharsLt : List Char → List Char → Bool
  | [], [] => false
  | [], _ :: _ => true
  | _ :: _, [] => false
  | a :: as, b :: bs =>
    if a.toNat < b.toNat then true
    else if b.toNat < a.toNat then false
    else pyCharsLt as bs

/-- Python string comparison a < b: lexicographic by code point. -/
def pyStrLt (a b : String) : Bool :=
  pyCharsLt a.data b.data

/-- An option returned by the solver bus for intents.py, which compares the
amount_out values exactly as they appear on the wire (strings). -/
structure RFQOptionS where
  amount_out : String
  quote_hash : String
deriving DecidableEq, Repr

/-- The serialized solver-bus quote request message.  The near_intents.py
serialize always includes the key exact_amount_in and includes
exact_amount_out only when an output amount is present. -/
structure QuoteRequestMsg where
  defuse_asset_identifier_in : String
  defuse_asset_identifier_out : String
  exact_amount_in : String
  exact_amount_out : Option String
  min_deadline_ms : ℕ
deriving DecidableEq, Repr

/-- Network and ledger effects performed by the orchestration functions, in
program order: storage registration and other contract calls (the ledger
collaborator), the account state query of the agent, the solver-bus quote
request, and the solver-bus publish_intent call. -/
inductive Eff where
  | registerStorage (token : String)
  | stateQuery
  | ledgerCall (description : String)
  | fetchOptions (msg : QuoteRequestMsg)
  | publishIntent (envelope : PublishIntent)
deriving DecidableEq, Repr

/-- The publish_intent calls contained in an effect trace, in order. -/
def publishes : List Eff → List PublishIntent
  | [] => []
  | .publishIntent p :: rest => p :: publishes rest
  | _ :: rest => publishes rest

/-- True when every publish_intent call in the trace carries exactly the
given quote_hashes list. -/
def allPublishesWith (tr : List Eff) (hashes : List String) : Bool :=
  (publishes tr).all fun p => p.quote_hashes == hashes

namespace NearIntents

/-!  Model of src/src/near_intents/near_intents.py.  -/

/-- The ASSET_MAP dict of near_intents.py. -/
def ASSET_MAP : String → Option AssetInfo := fun token =>
  if token = "USDC" then
    some { token_id := "a0b86991c6218b36c1d19d4a2e9eb0ce3606eb48.factory.bridge.near",
           omft := some "eth-0xa0b86991c6218b36c1d19d4a2e9eb0ce3606eb48.omft.near",
           decimals := 6 }
  else if token = "NEAR" then
    some { token_id := "wrap.near", omft := none, decimals := 24 }
  else none

/-- get_asset_id of near_intents.py: NEAR and USDC are special-cased, any
other token falls through to ASSET_MAP, where a missing key raises
KeyError. -/
def get_asset_id (token : String) : Except PyErr String :=
  if token = "NEAR" then .ok "near"
  else if token = "USDC" then
    .ok "nep141:a0b86991c6218b36c1d19d4a2e9eb0ce3606eb48.factory.bridge.near"
  else
    match ASSET_MAP token with
    | some info => .ok ("nep141:" ++ info.token_id)
    | none => .error .keyError

/-- The dict access ASSET_MAP[token]["decimals"] used by every amount
conversion site; a missing token raises KeyError. -/
def asset_decimals (token : String) : Except PyErr ℕ :=
  match ASSET_MAP token with
  | some info => .ok info.decimals
  | none => .error .keyError

/-- The composite to-base-units operation to_decimals(amount,
ASSET_MAP[token]["decimals"]) appearing at the deposit, request-building,
quote-building and withdraw sites of near_intents.py. -/
def to_base_units (token : String) (amount : ℚ) : Except PyErr String := do
  let d ← asset_decimals token
  .ok (to_decimals amount d)

/-- select_best_option of near_intents.py: starting from best_option = None,
take an option when the float conversion of its amount_out field is strictly
greater than that of the current best (the first option is always taken),
so the first of equally-converting options is kept. -/
def select_best_option (options : List RFQOption) : Option RFQOption :=
  options.foldl
    (fun best o =>
      match best with
      | none => some o
      | some b => if fl b.amount_out < fl o.amount_out then some o else some b)
    none

/-- create_token_diff_quote of near_intents.py.  randbits is the 256-bit
draw of random.getrandbits(256) and now_ms the value int(time.time() * 1000);
float() is applied to both amounts before the to_decimals conversion, and
the diff dict re-scales amount_out by the output decimals. -/
def create_token_diff_quote (signer_id token_in : String) (amount_in : ℚ)
    (token_out : String) (amount_out : ℚ) (randbits : ℕ) (now_ms : ℤ) :
    Except PyErr Quote := do
  let asset_in ← get_asset_id token_in
  let din ← asset_decimals token_in
  let asset_out ← get_asset_id token_out
  let dout ← asset_decimals token_out
  .ok { nonce := nonceFromDraw randbits,
        signer_id := signer_id,
        verifying_contract := "intents.near",
        deadline := toString (now_ms + 120000),
        intents := [.tokenDiff
          [(asset_in, "-" ++ to_decimals (fl amount_in) din),
           (asset_out, to_decimals (fl amount_out) dout)]] }

/-- The _asset_in dict of an IntentRequest: the asset id and the converted
amount string (set_asset_in always stores an amount). -/
structure AssetInSpec where
  asset : String
  amount : String
deriving DecidableEq, Repr

/-- The _asset_out dict of an IntentRequest: the asset id and the optional
converted amount string. -/
structure AssetOutSpec where
  asset : String
  amount : Option String
deriving DecidableEq, Repr

/-- The IntentRequest object of near_intents.py; request and thread are
never read and are omitted. -/
structure IntentRequest where
  min_deadline_ms : ℕ
  asset_in : Option AssetInSpec
  asset_out : Option AssetOutSpec
deriving DecidableEq, Repr

/-- IntentRequest() with the default min_deadline_ms of 120000 and both
asset slots unset (None). -/
def IntentRequest.empty : IntentRequest :=
  { min_deadline_ms := 120000, asset_in := none, asset_out := none }

/-- set_asset_in: store the asset id and converted amount; an unknown asset
name raises KeyError out of get_asset_id or the decimals lookup. -/
def IntentRequest.set_asset_in (r : IntentRequest) (asset_name : String)
    (amount : ℚ) : Except PyErr IntentRequest := do
  let aid ← get_asset_id asset_name
  let d ← asset_decimals asset_name
  .ok { r with asset_in := some { asset := aid, amount := to_decimals amount d } }

/-- set_asset_out: store the asset id and the optional converted amount.
The source computes the amount with the conditional expression
to_decimals(amount, ...) if amount else None, so by Python truthiness both
None and a zero amount store None. -/
def IntentRequest.set_asset_out (r : IntentRequest) (asset_name : String)
    (amount : Option ℚ) : Except PyErr IntentRequest := do
  let aid ← get_asset_id asset_name
  match amount with
  | none => .ok { r with asset_out := some { asset := aid, amount := none } }
  | some x =>
    if x = 0 then .ok { r with asset_out := some { asset := aid, amount := none } }
    else do
      let d ← asset_decimals asset_name
      .ok { r with asset_out := some { asset := aid, amount := some (to_decimals x d) } }

/-- serialize of near_intents.py: raise ValueError when either asset slot is
still None, otherwise build the message; exact_amount_in is always a key of
the message and exact_amount_out is added only when the output amount is not
None. -/
def IntentRequest.serialize (r : IntentRequest) : Except PyErr QuoteRequestMsg :=
  match r.asset_in, r.asset_out with
  | some ain, some aout =>
    .ok { defuse_asset_identifier_in := ain.asset,
          defuse_asset_identifier_out := aout.asset,
          exact_amount_in := ain.amount,
          exact_amount_out := aout.amount,
          min_deadline_ms := r.min_deadline_ms }
  | _, _ => .error (.valueError "Both input and output assets must be specified")

end NearIntents

namespace NearIntents

/-- intent_deposit of near_intents.py: convert the amount (KeyError on an
unknown token), then for NEAR wrap and transfer, otherwise transfer the
token directly. -/
def intent_deposit (token : String) (amount : ℚ) : List Eff × Except PyErr Unit :=
  match ASSET_MAP token with
  | none => ([], .error .keyError)
  | some info =>
    let amount_raw := to_decimals amount info.decimals
    if token = "NEAR" then
      ([.ledgerCall ("wrap.near near_deposit " ++ amount_raw),
        .ledgerCall ("wrap.near ft_transfer_call " ++ amount_raw)], .ok ())
    else
      ([.ledgerCall (info.token_id ++ " ft_transfer_call " ++ amount_raw)], .ok ())

/-- intent_swap of near_intents.py.  The solver response to the quote
request is the fetched argument; randbits is the nonce draw and now_ms the
clock reading used for the deadline.  Storage registration for each token is
a ledger call that raises KeyError out of ASSET_MAP for an unknown token;
after fetching, an empty selection raises the no-options ValueError before
any quote is built, and otherwise the quote is built, wrapped in an envelope
carrying the selected quote_hash, and published. -/
def intent_swap (signer token_in : String) (amount_in : ℚ) (token_out : String)
    (fetched : List RFQOption) (randbits : ℕ) (now_ms : ℤ) :
    List Eff × Except PyErr PublishIntent :=
  match ASSET_MAP token_in with
  | none => ([], .error .keyError)
  | some _ =>
    match ASSET_MAP token_out with
    | none => ([.registerStorage token_in], .error .keyError)
    | some _ =>
      match (IntentRequest.empty.set_asset_in token_in amount_in).bind
          (fun r => r.set_asset_out token_out none) with
      | .error e => ([.registerStorage token_in, .registerStorage token_out], .error e)
      | .ok req =>
        match req.serialize with
        | .error e => ([.registerStorage token_in, .registerStorage token_out], .error e)
        | .ok msg =>
          let pre : List Eff :=
            [.registerStorage token_in, .registerStorage token_out, .fetchOptions msg]
          match select_best_option fetched with
          | none =>
            (pre, .error (.valueError "No valid swap options available from solver bus"))
          | some best =>
            match create_token_diff_quote signer token_in amount_in token_out
                best.amount_out randbits now_ms with
            | .error e => (pre, .error e)
            | .ok q =>
              let envelope : PublishIntent := { signed_data := q, quote_hashes := [best.quote_hash] }
              (pre ++ [.publishIntent envelope], .ok envelope)

/-- intent_withdraw of near_intents.py: build an ft_withdraw quote against
the fixed verifying contract intents.testnet and deadline; when network is
not the native "near", retarget token and receiver to the omft bridge alias
(KeyError when the asset has none) and attach the WITHDRAW_TO memo; publish
with empty quote_hashes. -/
def intent_withdraw (signer destination_address token : String) (amount : ℚ)
    (network : String) (randbits : ℕ) : List Eff × Except PyErr PublishIntent :=
  match ASSET_MAP token with
  | none => ([], .error .keyError)
  | some info =>
    let baseIntent : IntentAction :=
      .ftWithdraw info.token_id destination_address (to_decimals amount info.decimals) none
    let retarget : Except PyErr IntentAction :=
      if network ≠ "near" then
        match info.omft with
        | none => .error .keyError
        | some omftAlias =>
          .ok (.ftWithdraw omftAlias omftAlias (to_decimals amount info.decimals)
                (some ("WITHDRAW_TO:" ++ destination_address)))
      else .ok baseIntent
    match retarget with
    | .error e => ([], .error e)
    | .ok act =>
      let q : Quote :=
        { nonce := nonceFromDraw randbits,
          signer_id := signer,
          verifying_contract := "intents.testnet",
          deadline := "2025-12-31T11:59:59.000Z",
          intents := [act] }
      let envelope : PublishIntent := { signed_data := q, quote_hashes := [] }
      ([.publishIntent envelope], .ok envelope)

end NearIntents

namespace IntentsPy

/-!  Model of src/intents.py, the older root-level duplicate.  -/

/-- The ASSET_MAP dict of intents.py: the USDC entry is a bare hex contract
id, there is no bridge alias key. -/
def ASSET_MAP : String → Option AssetInfo := fun token =>
  if token = "USDC" then
    some { token_id := "17208628f84f5d6ad33f0da3bbbeb27ffcb398eac501a31bd6ad2011e36133a1",
           omft := none, decimals := 6 }
  else if token = "NEAR" then
    some { token_id := "wrap.near", omft := none, decimals := 24 }
  else none

/-- get_asset_id of intents.py: always the nep141 prefix on the registry
token id, KeyError when the token is absent. -/
def get_asset_id (token : String) : Except PyErr String :=
  match ASSET_MAP token with
  | some info => .ok ("nep141:" ++ info.token_id)
  | none => .error .keyError

/-- select_best_option of intents.py: starting from best_option = None, take
an option when its amount_out is smaller than that of the current best; the
comparison is applied to the wire values directly, which for the string
amounts of the solver protocol is lexicographic string comparison. -/
def select_best_option (options : List RFQOptionS) : Option RFQOptionS :=
  options.foldl
    (fun best o =>
      match best with
      | none => some o
      | some b => if pyStrLt o.amount_out b.amount_out then some o else some b)
    none

/-- create_token_diff_quote of intents.py: both amounts are passed through
into the diff dict as strings, with a minus sign prepended to the input
amount; the deadline is a fixed timestamp. -/
def create_token_diff_quote (signer token_in amount_in token_out amount_out : String)
    (randbits : ℕ) : Except PyErr Quote := do
  let asset_in ← get_asset_id token_in
  let asset_out ← get_asset_id token_out
  .ok { nonce := nonceFromDraw randbits,
        signer_id := signer,
        verifying_contract := "intents.near",
        deadline := "2025-12-31T11:59:59.000Z",
        intents := [.tokenDiff [(asset_in, "-" ++ amount_in), (asset_out, amount_out)]] }

/-- intent_swap of intents.py: build and serialize the request, fetch,
select; the selection result is subscripted without a None check, so an
empty option list raises TypeError (NoneType is not subscriptable) after the
fetch; otherwise convert amount_in to base units and publish the quote with
the selected quote_hash. -/
def intent_swap (signer token_in : String) (amount_in : ℚ) (token_out : String)
    (fetched : List RFQOptionS) (randbits : ℕ) : List Eff × Except PyErr PublishIntent :=
  match ASSET_MAP token_in with
  | none => ([], .error .keyError)
  | some iin =>
    match ASSET_MAP token_out with
    | none => ([], .error .keyError)
    | some iout =>
      let msg : QuoteRequestMsg :=
        { defuse_asset_identifier_in := "nep141:" ++ iin.token_id,
          defuse_asset_identifier_out := "nep141:" ++ iout.token_id,
          exact_amount_in := to_decimals amount_in iin.decimals,
          exact_amount_out := none,
          min_deadline_ms := 120000 }
      let pre : List Eff := [.fetchOptions msg]
      match select_best_option fetched with
      | none => (pre, .error .typeError)
      | some best =>
        match create_token_diff_quote signer token_in (to_decimals amount_in iin.decimals)
            token_out best.amount_out randbits with
        | .error e => (pre, .error e)
        | .ok q =>
          let envelope : PublishIntent := { signed_data := q, quote_hashes := [best.quote_hash] }
          (pre ++ [.publishIntent envelope], .ok envelope)

/-- intent_withdraw of intents.py: build the ft_withdraw quote; for a
non-near network the source executes the statement
quote["intents"]["memo"] = "WITHDRAW_TO:...", which indexes the intents
list with a string key and therefore raises TypeError, so nothing is
retargeted and nothing is published; for the native network the quote is
published with empty quote_hashes. -/
def intent_withdraw (signer destination_address token : String) (amount : ℚ)
    (network : String) (randbits : ℕ) : List Eff × Except PyErr PublishIntent :=
  match ASSET_MAP token with
  | none => ([], .error .keyError)
  | some info =>
    let q : Quote :=
      { nonce := nonceFromDraw randbits,
        signer_id := signer,
        verifying_contract := "intents.near",
        deadline := "2025-12-31T11:59:59.000Z",
        intents := [.ftWithdraw info.token_id destination_address
          (to_decimals amount info.decimals) none] }
    if network ≠ "near" then ([], .error .typeError)
    else
      let envelope : PublishIntent := { signed_data := q, quote_hashes := [] }
      ([.publishIntent envelope], .ok envelope)

end IntentsPy

namespace AiAgent

/-!  Model of src/intents/ai_agent.py, AIAgent.deposit_near and
AIAgent.swap_near_to_token.  The balance the account state query returns is
passed in as balance_near (the exact value of the float the source computes
from the yoctoNEAR amount); logging calls have no effect and are omitted. -/

/-- AIAgent.deposit_near: a non-positive amount raises ValueError before any
call; then the account state is queried and an insufficient balance raises
ValueError; then storage is registered for NEAR and intent_deposit runs. -/
def deposit_near (amount balance_near : ℚ) : List Eff × Except PyErr Unit :=
  if amount ≤ 0 then
    ([], .error (.valueError "Deposit amount must be greater than 0"))
  else if balance_near < amount then
    ([Eff.stateQuery], .error (.valueError "Insufficient balance for deposit"))
  else
    let dep := NearIntents.intent_deposit "NEAR" amount
    ([Eff.stateQuery, Eff.registerStorage "NEAR"] ++ dep.1, dep.2)

/-- AIAgent.swap_near_to_token: a non-positive amount and then an unknown
target token raise ValueError before any call; then the account state is
queried and an insufficient balance raises ValueError; then the agent builds
its own request and fetches options, raising ValueError on an empty result;
finally intent_swap runs (select_best_option is also called on the fetched
options, purely for logging).  The solver bus is modelled as answering both
the agent fetch and the intent_swap fetch with the same fetched list. -/
def swap_near_to_token (signer target_token : String) (amount_in balance_near : ℚ)
    (fetched : List RFQOption) (randbits : ℕ) (now_ms : ℤ) :
    List Eff × Except PyErr PublishIntent :=
  if amount_in ≤ 0 then
    ([], .error (.valueError "Swap amount must be greater than 0"))
  else if (NearIntents.ASSET_MAP target_token).isNone then
    ([], .error (.valueError "Unsupported target token"))
  else if balance_near < amount_in then
    ([Eff.stateQuery], .error (.valueError "Insufficient balance for swap"))
  else
    match (NearIntents.IntentRequest.empty.set_asset_in "NEAR" amount_in).bind
        (fun r => r.set_asset_out target_token none) with
    | .error e => ([Eff.stateQuery], .error e)
    | .ok req =>
      match req.serialize with
      | .error e => ([Eff.stateQuery], .error e)
      | .ok msg =>
        if fetched.isEmpty then
          ([Eff.stateQuery, Eff.fetchOptions msg],
           .error (.valueError "No swap options available"))
        else
          let res := NearIntents.intent_swap signer "NEAR" amount_in target_token
            fetched randbits now_ms
          ([Eff.stateQuery, Eff.fetchOptions msg] ++ res.1, res.2)

end AiAgent


/-!  Verification of the specification claims.  -/

/-- True when the result is a raised ValueError. -/
def isValueError {α : Type} : Except PyErr α → Bool
  | .error (.valueError _) => true
  | _ => false

/-- Helper: a token present in the near_intents.py registry always resolves
to some asset id. -/
theorem get_asset_id_ok_of_mem (t : String) (i : AssetInfo)
    (h : NearIntents.ASSET_MAP t = some i) :
    ∃ s, NearIntents.get_asset_id t = .ok s := by
  unfold NearIntents.get_asset_id
  by_cases h1 : t = "NEAR"
  · exact ⟨"near", by simp [h1]⟩
  · by_cases h2 : t = "USDC"
    · refine ⟨"nep141:a0b86991c6218b36c1d19d4a2e9eb0ce3606eb48.factory.bridge.near", ?_⟩
      simp [h1, h2]
    · refine ⟨"nep141:" ++ i.token_id, ?_⟩
      simp [h1, h2, h]

/-- C1: the packaged near_intents.py select_best_option maximizes amount_out
with first-seen tie-break (250 wins over 100 and 80; the first of two equal
options is kept; the empty list yields none), but the intents.py
select_best_option applied to the amounts 100 and 250 keeps the option with
amount_out 100: it selects the smallest amount_out under string comparison,
not the maximum the specification states. -/
theorem c1_selection_rule_eval :
    IntentsPy.select_best_option [⟨"100", "h1"⟩, ⟨"250", "h2"⟩] = some ⟨"100", "h1"⟩ ∧
    NearIntents.select_best_option [⟨100, "h1"⟩, ⟨250, "h2"⟩, ⟨80, "h3"⟩] = some ⟨250, "h2"⟩ ∧
    NearIntents.select_best_option [] = none ∧
    NearIntents.select_best_option [⟨200, "h1"⟩, ⟨200, "h2"⟩] = some ⟨200, "h1"⟩ :=
  ⟨by decide, by decide, rfl, by decide⟩

/-- C2: when the solver bus returns no options, the near_intents.py
intent_swap fails with the no-options ValueError and publishes nothing,
while the intents.py intent_swap fails by subscripting None (TypeError)
and also publishes nothing. -/
theorem c2_empty_options_fail_before_publish :
    (NearIntents.intent_swap "alice.near" "NEAR" 1 "USDC" [] 7 0).2 =
      .error (.valueError "No valid swap options available from solver bus") ∧
    publishes (NearIntents.intent_swap "alice.near" "NEAR" 1 "USDC" [] 7 0).1 = [] ∧
    (IntentsPy.intent_swap "alice.near" "NEAR" 1 "USDC" [] 7).2 = .error .typeError ∧
    publishes (IntentsPy.intent_swap "alice.near" "NEAR" 1 "USDC" [] 7).1 = [] :=
  ⟨by decide, by decide, by decide, by decide⟩

/-- C3: to_decimals(0.5, 24) evaluates to "499999999999999991611392", not to
the claimed "500000000000000000000000", because the source multiplies in
binary64 (float(10 ** 24) is already 999999999999999983222784); the
low-decimal conversion to_decimals(10, 6) = "10000000" does hold. -/
theorem c3_to_decimals_eval :
    to_decimals (mkRat 1 2) 24 = "499999999999999991611392" ∧
    to_decimals 10 6 = "10000000" ∧
    to_decimals (mkRat 1 2) 24 ≠ "500000000000000000000000" :=
  ⟨by decide, by decide, by decide⟩

/-- C4: the token-diff quote built by the near_intents.py
create_token_diff_quote for a swap of 1.0 NEAR to USDC with selected
amount_out 1000000 contains exactly one token_diff intent, but its diff maps
the input asset "near" to "-999999999999999983222784" (binary64 loss on
1.0 * 10 ** 24, not the claimed exact "-1000000000000000000000000") and maps
the USDC asset id to "1000000000000": the selected amount_out, which is
already in base units, is re-scaled by 10 ** 6 instead of being used as is. -/
theorem c4_token_diff_quote_eval :
    (NearIntents.create_token_diff_quote "alice.near" "NEAR" 1 "USDC" 1000000 7 0).map
      Quote.intents =
      .ok [.tokenDiff
        [("near", "-999999999999999983222784"),
         ("nep141:a0b86991c6218b36c1d19d4a2e9eb0ce3606eb48.factory.bridge.near",
          "1000000000000")]] ∧
    ("-999999999999999983222784" : String) ≠ "-1000000000000000000000000" ∧
    ("1000000000000" : String) ≠ "1000000" :=
  ⟨by decide, by decide, by decide⟩

/-- C5: the near_intents.py intent_withdraw behaves as claimed: a withdrawal
of 1 USDC to an eth address retargets token and receiver to the omft bridge
alias and attaches the WITHDRAW_TO memo, and a withdrawal to a near account
uses the recipient directly with no memo; the intents.py intent_withdraw on
the same non-native input instead raises TypeError, because it assigns
quote["intents"]["memo"], indexing the intents list with a string key, and
its asset map has no bridge alias to retarget to. -/
theorem c5_withdraw_eval :
    (NearIntents.intent_withdraw "alice.near" "0xdeadbeef" "USDC" 1 "eth" 7).2 =
      .ok { signed_data :=
              { nonce := nonceFromDraw 7,
                signer_id := "alice.near",
                verifying_contract := "intents.testnet",
                deadline := "2025-12-31T11:59:59.000Z",
                intents := [.ftWithdraw
                  "eth-0xa0b86991c6218b36c1d19d4a2e9eb0ce3606eb48.omft.near"
                  "eth-0xa0b86991c6218b36c1d19d4a2e9eb0ce3606eb48.omft.near"
                  "1000000" (some "WITHDRAW_TO:0xdeadbeef")] },
            quote_hashes := [] } ∧
    (NearIntents.intent_withdraw "alice.near" "bob.near" "USDC" 1 "near" 7).2 =
      .ok { signed_data :=
              { nonce := nonceFromDraw 7,
                signer_id := "alice.near",
                verifying_contract := "intents.testnet",
                deadline := "2025-12-31T11:59:59.000Z",
                intents := [.ftWithdraw
                  "a0b86991c6218b36c1d19d4a2e9eb0ce3606eb48.factory.bridge.near"
                  "bob.near" "1000000" none] },
            quote_hashes := [] } ∧
    (IntentsPy.intent_withdraw "alice.near" "0xdeadbeef" "USDC" 1 "eth" 7).2 =
      .error .typeError ∧
    publishes (IntentsPy.intent_withdraw "alice.near" "0xdeadbeef" "USDC" 1 "eth" 7).1 = [] :=
  ⟨by decide, by decide, by decide, by decide⟩

/-- C9: the nonce of a quote is a pure function of the 256-bit value drawn
from the Python random module (a seedable Mersenne Twister generator, not a
cryptographically secure source): two distinct quotes built from the same
generator draw carry the same nonce, so freshness and non-reuse rest
entirely on the generator state; the encoding itself is base64 of exactly 32
bytes, a 44-character string. -/
theorem c9_nonce_from_generator_draw :
    ∃ q1 q2 : Quote,
      NearIntents.create_token_diff_quote "alice.near" "NEAR" 1 "USDC" 1 123456789 0 = .ok q1 ∧
      NearIntents.create_token_diff_quote "bob.near" "USDC" 2 "NEAR" 3 123456789 5000 = .ok q2 ∧
      q1 ≠ q2 ∧
      q1.nonce = q2.nonce ∧
      q1.nonce = b64encode (toBytesBE 32 123456789) ∧
      (toBytesBE 32 123456789).length = 32 ∧
      q1.nonce.length = 44 := by
  refine ⟨_, _, rfl, rfl, by decide, by decide, by decide, by decide, by decide⟩

/-- C6: every publish_intent call made by the near_intents.py intent_swap
carries quote_hashes equal to the one-element list holding the quote_hash of
the option that select_best_option actually chose, and every publish_intent
call made by intent_withdraw carries an empty quote_hashes list. -/
theorem c6_publish_envelope_hashes (signer token_in : String) (amount_in : ℚ)
    (token_out : String) (fetched : List RFQOption) (best : RFQOption)
    (randbits : ℕ) (now_ms : ℤ) (dest wtoken network : String) (wamount : ℚ)
    (randbits2 : ℕ)
    (hsel : NearIntents.select_best_option fetched = some best) :
    allPublishesWith
      (NearIntents.intent_swap signer token_in amount_in token_out fetched randbits now_ms).1
      [best.quote_hash] = true ∧
    allPublishesWith
      (NearIntents.intent_withdraw signer dest wtoken wamount network randbits2).1
      [] = true := by
  constructor
  · unfold NearIntents.intent_swap
    split
    · simp [allPublishesWith, publishes]
    · split
      · simp [allPublishesWith, publishes]
      · split
        · simp [allPublishesWith, publishes]
        · split
          · simp [allPublishesWith, publishes]
          · split
            · simp [allPublishesWith, publishes]
            · rename_i b heq
              rw [hsel] at heq
              cases heq
              split
              · simp [allPublishesWith, publishes]
              · simp [allPublishesWith, publishes]
  · unfold NearIntents.intent_withdraw
    repeat' split
    all_goals simp [allPublishesWith, publishes]

/-- C6 witness: a concrete swap with one fetched option publishes exactly
with that quote_hash, and a concrete native withdrawal publishes with empty
quote_hashes. -/
theorem c6_publish_envelope_hashes_witness :
    allPublishesWith
      (NearIntents.intent_swap "alice.near" "NEAR" 1 "USDC" [⟨250, "h1"⟩] 7 0).1
      ["h1"] = true ∧
    allPublishesWith
      (NearIntents.intent_withdraw "alice.near" "bob.near" "USDC" 1 "near" 7).1
      [] = true :=
  c6_publish_envelope_hashes "alice.near" "NEAR" 1 "USDC" [⟨250, "h1"⟩] ⟨250, "h1"⟩
    7 0 "bob.near" "USDC" "near" 1 7 (by decide)

/-- C7 (amended): at the AIAgent entry points, a deposit with a non-positive
amount and a swap with a non-positive amount or an unknown output asset
raise a ValueError before any network or ledger effect: the effect trace is
empty.  (The lower-level intent_swap of near_intents.py performs no such
validation; see the C7 counterexample.) -/
theorem c7_validation_before_network (signer target : String) (amount balance : ℚ)
    (fetched : List RFQOption) (randbits : ℕ) (now_ms : ℤ)
    (h : amount ≤ 0 ∨ NearIntents.ASSET_MAP target = none) :
    (amount ≤ 0 →
      AiAgent.deposit_near amount balance =
        ([], .error (.valueError "Deposit amount must be greater than 0"))) ∧
    (AiAgent.swap_near_to_token signer target amount balance fetched randbits now_ms).1 = [] ∧
    isValueError
      (AiAgent.swap_near_to_token signer target amount balance fetched randbits now_ms).2 = true := by
  refine ⟨fun h0 => ?_, ?_⟩
  · simp [AiAgent.deposit_near, h0]
  · by_cases h0 : amount ≤ 0
    · simp [AiAgent.swap_near_to_token, h0, isValueError]
    · have hmap : NearIntents.ASSET_MAP target = none := h.resolve_left h0
      simp [AiAgent.swap_near_to_token, h0, hmap, isValueError]

/-- C7 witness: a deposit of 0 and a swap of 1 NEAR to the unknown token
DOGE are rejected with an empty effect trace. -/
theorem c7_validation_before_network_witness :
    AiAgent.deposit_near 0 5 =
      ([], .error (.valueError "Deposit amount must be greater than 0")) ∧
    (AiAgent.swap_near_to_token "alice.near" "DOGE" 1 5 [] 7 0).1 = [] ∧
    isValueError (AiAgent.swap_near_to_token "alice.near" "DOGE" 1 5 [] 7 0).2 = true := by
  have h := c7_validation_before_network "alice.near" "DOGE" 1 5 [] 7 0 (Or.inr (by decide))
  have h0 := c7_validation_before_network "alice.near" "DOGE" 0 5 [] 7 0 (Or.inl (by decide))
  exact ⟨h0.1 (by decide), h.2.1, h.2.2⟩

/-- C7 counterexample: the claim fails on the cited intent_swap of
near_intents.py.  A swap invocation to the unknown output asset DOGE
performs the storage-registration network call for the input token before
failing with KeyError, so the validation error is not raised before any
network call; and a swap invocation with the negative amount -1 raises no
validation error at all: with an option available it runs the full network
sequence and publishes. -/
theorem c7_intent_swap_no_validation_counterexample :
    NearIntents.intent_swap "alice.near" "NEAR" 1 "DOGE" [] 7 0 =
      ([.registerStorage "NEAR"], .error .keyError) ∧
    (NearIntents.intent_swap "alice.near" "NEAR" (-1) "USDC" [⟨250, "h1"⟩] 7 0).2.toOption.isSome
      = true ∧
    (publishes (NearIntents.intent_swap "alice.near" "NEAR" (-1) "USDC"
      [⟨250, "h1"⟩] 7 0).1).length = 1 :=
  ⟨by decide, by decide, by decide⟩

/-- C8: a token symbol absent from the registry makes get_asset_id and the
to-base-units conversion of near_intents.py, and get_asset_id of intents.py,
raise KeyError instead of returning a default identifier. -/
theorem c8_unknown_asset_fails (token : String) (amount : ℚ)
    (h1 : token ≠ "NEAR") (h2 : token ≠ "USDC") :
    NearIntents.get_asset_id token = .error .keyError ∧
    NearIntents.to_base_units token amount = .error .keyError ∧
    IntentsPy.get_asset_id token = .error .keyError := by
  have hm : NearIntents.ASSET_MAP token = none := by
    simp [NearIntents.ASSET_MAP, h1, h2]
  have hm2 : IntentsPy.ASSET_MAP token = none := by
    simp [IntentsPy.ASSET_MAP, h1, h2]
  refine ⟨?_, ?_, ?_⟩
  · simp [NearIntents.get_asset_id, h1, h2, hm]
  · have hd : NearIntents.asset_decimals token = .error .keyError := by
      simp [NearIntents.asset_decimals, hm]
    unfold NearIntents.to_base_units
    rw [hd]
    rfl
  · simp [IntentsPy.get_asset_id, hm2]

/-- C8 witness: the unknown symbol DOGE is rejected with KeyError by all
three lookup paths. -/
theorem c8_unknown_asset_fails_witness :
    NearIntents.get_asset_id "DOGE" = .error .keyError ∧
    NearIntents.to_base_units "DOGE" 1 = .error .keyError ∧
    IntentsPy.get_asset_id "DOGE" = .error .keyError :=
  c8_unknown_asset_fails "DOGE" 1 (by decide) (by decide)

/-- C10 counterexample: an output amount of zero IS given to set_asset_out,
yet the serialized message omits exact_amount_out, because the source guards
the conversion with Python truthiness (to_decimals(amount, ...) if amount
else None) and 0 is falsy; so the message does not contain exact_amount_out
exactly when an output amount was given. -/
theorem c10_zero_output_amount_counterexample :
    ((NearIntents.IntentRequest.empty.set_asset_in "NEAR" 1).bind
        (fun r => r.set_asset_out "USDC" (some 0))).map
      (fun r => r.serialize.map QuoteRequestMsg.exact_amount_out) =
      .ok (.ok none) := by decide

/-- C10 (amended): serialize raises the both-assets ValueError whenever
either asset slot is unset; a request built with set_asset_in and
set_asset_out on registry tokens serializes with exact_amount_in always
present, and with exact_amount_out present exactly when a nonzero output
amount was given (by Python truthiness the source treats a zero amount like
an absent one). -/
theorem c10_serialize_spec (r : NearIntents.IntentRequest) (tin tout : String)
    (iin iout : AssetInfo) (a : ℚ) (b : Option ℚ)
    (h1 : NearIntents.ASSET_MAP tin = some iin)
    (h2 : NearIntents.ASSET_MAP tout = some iout) :
    (r.asset_in = none ∨ r.asset_out = none →
      r.serialize = .error (.valueError "Both input and output assets must be specified")) ∧
    (∃ req msg,
      (NearIntents.IntentRequest.empty.set_asset_in tin a).bind
        (fun q => q.set_asset_out tout b) = .ok req ∧
      req.serialize = .ok msg ∧
      msg.exact_amount_in = to_decimals a iin.decimals ∧
      msg.exact_amount_out =
        b.bind (fun x => if x = 0 then none else some (to_decimals x iout.decimals)) ∧
      (msg.exact_amount_out.isSome ↔ ∃ x, b = some x ∧ x ≠ 0)) := by
  obtain ⟨sin, hsin⟩ := get_asset_id_ok_of_mem tin iin h1
  obtain ⟨sout, hsout⟩ := get_asset_id_ok_of_mem tout iout h2
  have hdin : NearIntents.asset_decimals tin = .ok iin.decimals := by
    simp [NearIntents.asset_decimals, h1]
  have hdout : NearIntents.asset_decimals tout = .ok iout.decimals := by
    simp [NearIntents.asset_decimals, h2]
  have hin : NearIntents.IntentRequest.empty.set_asset_in tin a =
      .ok { min_deadline_ms := 120000,
            asset_in := some { asset := sin, amount := to_decimals a iin.decimals },
            asset_out := none } := by
    unfold NearIntents.IntentRequest.set_asset_in
    rw [hsin, hdin]
    rfl
  constructor
  · intro h
    unfold NearIntents.IntentRequest.serialize
    rcases h with h | h
    · rw [h]
    · rw [h]
      cases r.asset_in <;> rfl
  · rcases b with _ | x
    · refine ⟨{ min_deadline_ms := 120000,
                asset_in := some { asset := sin, amount := to_decimals a iin.decimals },
                asset_out := some { asset := sout, amount := none } },
              { defuse_asset_identifier_in := sin, defuse_asset_identifier_out := sout,
                exact_amount_in := to_decimals a iin.decimals,
                exact_amount_out := none, min_deadline_ms := 120000 },
              ?_, rfl, rfl, rfl, by simp⟩
      rw [hin]
      unfold NearIntents.IntentRequest.set_asset_out
      rw [hsout]
      rfl
    · by_cases hx : x = 0
      · refine ⟨{ min_deadline_ms := 120000,
                  asset_in := some { asset := sin, amount := to_decimals a iin.decimals },
                  asset_out := some { asset := sout, amount := none } },
                { defuse_asset_identifier_in := sin, defuse_asset_identifier_out := sout,
                  exact_amount_in := to_decimals a iin.decimals,
                  exact_amount_out := none, min_deadline_ms := 120000 },
                ?_, rfl, rfl, by simp [hx], by simp [hx]⟩
        rw [hin]
        unfold NearIntents.IntentRequest.set_asset_out
        rw [hsout]
        simp only [hx, if_pos]
        rfl
      · refine ⟨{ min_deadline_ms := 120000,
                  asset_in := some { asset := sin, amount := to_decimals a iin.decimals },
                  asset_out := some { asset := sout, amount := some (to_decimals x iout.decimals) } },
                { defuse_asset_identifier_in := sin, defuse_asset_identifier_out := sout,
                  exact_amount_in := to_decimals a iin.decimals,
                  exact_amount_out := some (to_decimals x iout.decimals),
                  min_deadline_ms := 120000 },
                ?_, rfl, rfl, by simp [hx], by simp [hx]⟩
        rw [hin]
        unfold NearIntents.IntentRequest.set_asset_out
        rw [hsout, hdout]
        simp only [hx, if_neg, ite_false]
        rfl

/-- C10 witness: on the concrete request NEAR to USDC with input amount 1
and output amount one quarter, the built request serializes with both exact
amounts present, and a zero output amount yields no exact_amount_out. -/
theorem c10_serialize_spec_witness :
    NearIntents.IntentRequest.empty.serialize =
      .error (.valueError "Both input and output assets must be specified") ∧
    (∃ req msg,
      (NearIntents.IntentRequest.empty.set_asset_in "NEAR" 1).bind
        (fun q => q.set_asset_out "USDC" (some (mkRat 1 4))) = .ok req ∧
      req.serialize = .ok msg ∧
      msg.exact_amount_in = to_decimals 1 24 ∧
      msg.exact_amount_out =
        (some (mkRat 1 4)).bind
          (fun x => if x = 0 then none else some (to_decimals x 6)) ∧
      (msg.exact_amount_out.isSome ↔ ∃ x, some (mkRat 1 4) = some x ∧ x ≠ 0)) := by
  have h := c10_serialize_spec NearIntents.IntentRequest.empty "NEAR" "USDC"
    { token_id := "wrap.near", omft := none, decimals := 24 }
    { token_id := "a0b86991c6218b36c1d19d4a2e9eb0ce3606eb48.factory.bridge.near",
      omft := some "eth-0xa0b86991c6218b36c1d19d4a2e9eb0ce3606eb48.omft.near",
      decimals := 6 }
    1 (some (mkRat 1 4)) (by decide) (by decide)
  exact ⟨h.1 (Or.inl rfl), h.2⟩
